import Mathlib

/-
Verification of the client-side property-discovery and session-management
layer of the ethio-home-nexus repository.

The development shallowly embeds the relevant TypeScript modules:

* `src/store/authStore.ts` (zustand store): `AuthState`, `stepAuth`,
  `getCurrentUser`, `logout`;
* `src/services/api.ts` (axios response interceptor): `handleApiError`;
* `src/hooks/useAuth.ts` (mount effect): `mountBatch`;
* `src/pages/Properties.tsx`: `PropertiesState`, `buildFilters`,
  `stepProperties`;
* `src/hooks/useProperties.ts` (react-query keys and invalidation calls):
  `propertiesListKey`, `onCreateSuccess`, `onUpdateSuccess`,
  `onDeleteSuccess`.

Asynchronous operations are modelled by explicit state passing: every
`set(...)` call of the zustand store is one transition, and the result of
an awaited network call is passed in as an `Except` value.
-/

namespace EthioHome

/-- A user record, following the `User` interface of
`src/services/authService.ts` (fields irrelevant to the claims are kept
abstract as strings). -/
structure User where
  id : String
  name : String
  email : String
  role : String
deriving DecidableEq

/-- Failure of a network call: network error, timeout, or an HTTP error
status (axios rejects in all three cases; `timeout: 10000` in
`src/services/api.ts`). -/
inductive ApiError where
  | network
  | timeout
  | http (status : Nat)
deriving DecidableEq

/-- The state held by the zustand store in `src/store/authStore.ts`:
`user`, `isAuthenticated`, `isLoading`. -/
structure AuthState where
  user : Option User
  isAuthenticated : Bool
  isLoading : Bool
deriving DecidableEq

/-- The store's initial state: `user: null, isAuthenticated: false,
isLoading: false`. -/
def initialAuthState : AuthState :=
  { user := none, isAuthenticated := false, isLoading := false }

/-- The state written by `logout`, `clearAuth` and the failure branch of
`getCurrentUser`: `user: null, isAuthenticated: false, isLoading: false`. -/
def anonymousState : AuthState :=
  { user := none, isAuthenticated := false, isLoading := false }

/-- One `set(...)` call of the auth store.  Every operation of the store
(`setUser`, `setLoading`, `login`, `logout`, `getCurrentUser`,
`clearAuth`) is a sequence of these events; the two-phase operations
(`login`, `getCurrentUser`) contribute a start event (the synchronous
`set` before the first `await`) and a settle event. -/
inductive AuthEvent where
  | setUser (u : Option User)
  | setLoading (b : Bool)
  | loginStart
  | loginSucceed (u : User)
  | loginFail
  | logoutSettle
  | probeStart
  | probeSucceed (u : User)
  | probeFail
  | clearAuth
deriving DecidableEq

/-- The transition of the auth store for one `set(...)` call, transcribed
from `src/store/authStore.ts`:
* `setUser`: `set({ user, isAuthenticated: !!user })`;
* `setLoading`: `set({ isLoading })`;
* `loginStart`/`probeStart`: `set({ isLoading: true })`;
* `loginSucceed`/`probeSucceed`: `set({ user, isAuthenticated: true, isLoading: false })`;
* `loginFail`: `set({ isLoading: false })`;
* `logoutSettle`/`probeFail`/`clearAuth`:
  `set({ user: null, isAuthenticated: false, isLoading: false })`. -/
def stepAuth : AuthEvent → AuthState → AuthState
  | AuthEvent.setUser u, s => { s with user := u, isAuthenticated := u.isSome }
  | AuthEvent.setLoading b, s => { s with isLoading := b }
  | AuthEvent.loginStart, s => { s with isLoading := true }
  | AuthEvent.loginSucceed u, s =>
      { s with user := some u, isAuthenticated := true, isLoading := false }
  | AuthEvent.loginFail, s => { s with isLoading := false }
  | AuthEvent.logoutSettle, _ => anonymousState
  | AuthEvent.probeStart, s => { s with isLoading := true }
  | AuthEvent.probeSucceed u, s =>
      { s with user := some u, isAuthenticated := true, isLoading := false }
  | AuthEvent.probeFail, _ => anonymousState
  | AuthEvent.clearAuth, _ => anonymousState

/-- Run a sequence of store transitions. -/
def runAuth (es : List AuthEvent) (s : AuthState) : AuthState :=
  es.foldl (fun t e => stepAuth e t) s

/-- The session invariant: `isAuthenticated` is true exactly when `user`
is non-null. -/
def authConsistent (s : AuthState) : Prop :=
  (s.isAuthenticated = true ↔ s.user ≠ none)

/-- The whole `getCurrentUser` operation of `src/store/authStore.ts`,
with the settled result of `GET /users/me` passed in.  The second
component is the error propagated to the caller: the `try`/`catch`
swallows every failure, so it is always `none`. -/
def getCurrentUser (probe : Except ApiError User) (s : AuthState) :
    AuthState × Option ApiError :=
  let s1 := stepAuth AuthEvent.probeStart s
  match probe with
  | Except.ok u => (stepAuth (AuthEvent.probeSucceed u) s1, none)
  | Except.error _ => (stepAuth AuthEvent.probeFail s1, none)

/-- Observable record of one run of the `logout` operation. -/
structure LogoutRun where
  stateDuringServerCall : AuthState
  serverCallIssued : Bool
  finalState : AuthState
deriving DecidableEq

/-- The `logout` operation of `src/store/authStore.ts`: it first awaits
`authService.logout()` (no `set` happens before the `await`, so the state
during the server call is the entry state), then clears the local state;
the `catch` branch clears it identically, so the final state does not
depend on the server result. -/
def logout (serverResult : Except ApiError Unit) (s : AuthState) : LogoutRun :=
  match serverResult with
  | Except.ok _ =>
      { stateDuringServerCall := s
        serverCallIssued := true
        finalState := stepAuth AuthEvent.logoutSettle s }
  | Except.error _ =>
      { stateDuringServerCall := s
        serverCallIssued := true
        finalState := stepAuth AuthEvent.logoutSettle s }

/-- World in which session probes are counted: the store plus the number
of `GET /users/me` probe requests issued so far and currently in flight. -/
structure ProbeWorld where
  store : AuthState
  probesIssued : Nat
  probesInFlight : Nat
deriving DecidableEq

/-- Bootstrap world: store in its initial state, no probe issued. -/
def initialProbeWorld : ProbeWorld :=
  { store := initialAuthState, probesIssued := 0, probesInFlight := 0 }

/-- Calling `getCurrentUser()` runs its body synchronously up to the first
`await`: `set({ isLoading: true })` and the start of the network probe. -/
def startProbe (w : ProbeWorld) : ProbeWorld :=
  { store := stepAuth AuthEvent.probeStart w.store
    probesIssued := w.probesIssued + 1
    probesInFlight := w.probesInFlight + 1 }

/-- The mount effect of `src/hooks/useAuth.ts`: the effect closure holds
the state snapshot captured at render time, and runs
`if (!authStore.user && !authStore.isLoading) authStore.getCurrentUser()`
against that snapshot. -/
def mountEffect (snapshot : AuthState) (w : ProbeWorld) : ProbeWorld :=
  if snapshot.user = none ∧ snapshot.isLoading = false then startProbe w else w

/-- Run `n` mount effects that all hold the same render-time snapshot. -/
def runMountEffects : Nat → AuthState → ProbeWorld → ProbeWorld
  | 0, _, w => w
  | n + 1, snap, w => runMountEffects n snap (mountEffect snap w)

/-- Mounting `n` consumers of `useAuth` in the same render commit: all of them render first (each effect closure capturing the store state of that
render), then the effects run one after the other. -/
def mountBatch (n : Nat) (w : ProbeWorld) : ProbeWorld :=
  runMountEffects n w.store w

/-- The slice of auth state written to `localStorage` under the key
`auth-storage` by the `persist` middleware's `partialize` in
`src/store/authStore.ts`: `user` and `isAuthenticated` only. -/
structure PersistedAuth where
  user : Option User
  isAuthenticated : Bool
deriving DecidableEq

/-- Browser-level state seen by the axios response interceptor of
`src/services/api.ts`: the in-memory store, the persisted `auth-storage`
entry, and `window.location.pathname`. -/
structure BrowserWorld where
  store : AuthState
  storage : Option PersistedAuth
  path : String
deriving DecidableEq

/-- Rehydration of the zustand store from the persisted `auth-storage`
entry on application load: an absent entry yields the initial state. -/
def rehydrate (st : Option PersistedAuth) : AuthState :=
  match st with
  | some p => { user := p.user, isAuthenticated := p.isAuthenticated, isLoading := false }
  | none => initialAuthState

/-- Test whether the second character list is an initial segment of the first. -/
def charListStartsWith : List Char → List Char → Bool
  | _, [] => true
  | [], _ :: _ => false
  | c :: cs, p :: ps => decide (c = p) && charListStartsWith cs ps

/-- Substring occurrence on character lists. -/
def charListContains : List Char → List Char → Bool
  | [], ps => charListStartsWith [] ps
  | c :: cs, ps => charListStartsWith (c :: cs) ps || charListContains cs ps

/-- JavaScript `String.prototype.includes`. -/
def jsIncludes (hay pat : String) : Bool :=
  charListContains hay.data pat.data

/-- The error branch of the axios response interceptor in
`src/services/api.ts`: on a 401 it removes the persisted `auth-storage`
entry and, unless the current pathname already includes `/login`, assigns
`window.location.href = '/login'` — a full navigation that reloads the
application, after which the store is rehydrated from the (just cleared)
storage.  The in-memory store itself is not written by the interceptor. -/
def handleApiError (status : Nat) (w : BrowserWorld) : BrowserWorld :=
  if status = 401 then
    if jsIncludes w.path "/login" then
      { w with storage := none }
    else
      { store := rehydrate none, storage := none, path := "/login" }
  else w

/-- JavaScript `String.prototype.trim`: strip whitespace from both ends. -/
def jsTrim (s : String) : String :=
  String.mk (((s.data.dropWhile Char.isWhitespace).reverse.dropWhile
    Char.isWhitespace).reverse)

/-- JavaScript `parseInt` restricted to its use in `Properties.tsx`
(select values, digit strings): the leading digit run is parsed, `none`
standing for `NaN` when there is none. -/
def jsParseInt (s : String) : Option Nat :=
  let ds := s.data.takeWhile Char.isDigit
  if ds.isEmpty then none
  else some (ds.foldl (fun acc c => acc * 10 + (c.toNat - 48)) 0)

/-- The `useState` pieces of the `Properties` page (`Properties.tsx`):
search text, selected type, price range slider (pair of bounds), bedroom
and bathroom select values (strings), sort key, filter-panel visibility,
current page, verified-only checkbox. -/
structure PropertiesState where
  searchQuery : String
  selectedType : String
  priceLo : Nat
  priceHi : Nat
  bedrooms : String
  bathrooms : String
  sortBy : String
  showFilters : Bool
  currentPage : Nat
  verifiedOnly : Bool
deriving DecidableEq

/-- The page size constant `itemsPerPage = 12` of `Properties.tsx`. -/
def itemsPerPage : Nat := 12

/-- The initial state of the `Properties` page: empty search, all types,
price range `[0, 5000000]`, no bedroom/bathroom choice, newest first,
filters hidden, page 1, verified-only off. -/
def initialPropertiesState : PropertiesState :=
  { searchQuery := "", selectedType := "", priceLo := 0, priceHi := 5000000,
    bedrooms := "", bathrooms := "", sortBy := "-createdAt",
    showFilters := false, currentPage := 1, verifiedOnly := false }

/-- The `PropertyFilters` record sent to the listing endpoint
(`src/services/propertyService.ts`); optional dimensions are absent when
the UI value equals the implicit default. -/
structure PropertyFilters where
  location : Option String
  propertyType : Option String
  minPrice : Option Nat
  maxPrice : Option Nat
  bedrooms : Option Nat
  bathrooms : Option Nat
  verified : Option Bool
  page : Nat
  limit : Nat
  sort : String
deriving DecidableEq

/-- The filter-building `useMemo` of `Properties.tsx` (lines 63–99):
`page`, `limit`, `sort` always present; `location` only when the trimmed
search text is non-empty; `propertyType` only when non-empty;
`minPrice` only when the lower slider bound exceeds 0; `maxPrice` only
when the upper bound is below the 5,000,000 ceiling; `bedrooms` and
`bathrooms` only when their select values are non-empty (parsed with
`parseInt`); `verified` only when the checkbox is on. -/
def buildFilters (s : PropertiesState) : PropertyFilters :=
  { page := s.currentPage
    limit := itemsPerPage
    sort := s.sortBy
    location := if jsTrim s.searchQuery ≠ "" then some (jsTrim s.searchQuery) else none
    propertyType := if s.selectedType ≠ "" then some s.selectedType else none
    minPrice := if s.priceLo > 0 then some s.priceLo else none
    maxPrice := if s.priceHi < 5000000 then some s.priceHi else none
    bedrooms := if s.bedrooms ≠ "" then jsParseInt s.bedrooms else none
    bathrooms := if s.bathrooms ≠ "" then jsParseInt s.bathrooms else none
    verified := if s.verifiedOnly then some true else none }

/-- Serialization of one optional numeric dimension of a cache key. -/
def optNatField (name : String) (v : Option Nat) : List String :=
  match v with
  | some n => [name ++ "=" ++ toString n]
  | none => []

/-- Serialization of one optional text dimension of a cache key. -/
def optStrField (name : String) (v : Option String) : List String :=
  match v with
  | some t => [name ++ "=" ++ t]
  | none => []

/-- Serialization of one optional boolean dimension of a cache key. -/
def optBoolField (name : String) (v : Option Bool) : List String :=
  match v with
  | some b => [name ++ "=" ++ toString b]
  | none => []

/-- Modelled from the spec: the Query Cache Key Builder (react-query's
`hashKey`, library code not present in the repository) serializes the
filter record deterministically with its dimensions in sorted name order,
absent dimensions omitted. -/
def filtersCacheKey (f : PropertyFilters) : String :=
  String.intercalate "&"
    (optNatField "bathrooms" f.bathrooms ++
     optNatField "bedrooms" f.bedrooms ++
     ["limit=" ++ toString f.limit] ++
     optStrField "location" f.location ++
     optNatField "maxPrice" f.maxPrice ++
     optNatField "minPrice" f.minPrice ++
     ["page=" ++ toString f.page] ++
     optStrField "propertyType" f.propertyType ++
     ["sort=" ++ f.sort] ++
     optBoolField "verified" f.verified)

/-- A UI event of the `Properties` page: one of the state setters wired
to the controls, the search form submission (`handleSearch`), the
Clear All button (`clearFilters`), or a pagination button
(`setCurrentPage`). -/
inductive FilterEvent where
  | setSearchQuery (q : String)
  | setSelectedType (t : String)
  | setPriceRange (lo hi : Nat)
  | setBedrooms (b : String)
  | setBathrooms (b : String)
  | setSortBy (k : String)
  | setVerifiedOnly (b : Bool)
  | submitSearch
  | clearAllFilters
  | setPage (p : Nat)
deriving DecidableEq

/-- The state transition of the `Properties` page for each UI event,
transcribed from `Properties.tsx`: each setter updates exactly its own
piece of state; `handleSearch` calls `setCurrentPage(1)`; `clearFilters`
resets search, type, price range, bedrooms, bathrooms, verified-only and
page (but not the sort key); the pagination buttons call
`setCurrentPage` with the chosen page. -/
def stepProperties : FilterEvent → PropertiesState → PropertiesState
  | FilterEvent.setSearchQuery q, s => { s with searchQuery := q }
  | FilterEvent.setSelectedType t, s => { s with selectedType := t }
  | FilterEvent.setPriceRange lo hi, s => { s with priceLo := lo, priceHi := hi }
  | FilterEvent.setBedrooms b, s => { s with bedrooms := b }
  | FilterEvent.setBathrooms b, s => { s with bathrooms := b }
  | FilterEvent.setSortBy k, s => { s with sortBy := k }
  | FilterEvent.setVerifiedOnly b, s => { s with verifiedOnly := b }
  | FilterEvent.submitSearch, s => { s with currentPage := 1 }
  | FilterEvent.clearAllFilters, s =>
      { s with searchQuery := "", selectedType := "", priceLo := 0,
               priceHi := 5000000, bedrooms := "", bathrooms := "",
               verifiedOnly := false, currentPage := 1 }
  | FilterEvent.setPage p, s => { s with currentPage := p }

/-- Whether an event changes a filter dimension other than the page
number: the location text, property type, price bounds, bedrooms,
bathrooms, sort key or verified-only setters. -/
def isFilterDimensionChange : FilterEvent → Bool
  | FilterEvent.setSearchQuery _ => true
  | FilterEvent.setSelectedType _ => true
  | FilterEvent.setPriceRange _ _ => true
  | FilterEvent.setBedrooms _ => true
  | FilterEvent.setBathrooms _ => true
  | FilterEvent.setSortBy _ => true
  | FilterEvent.setVerifiedOnly _ => true
  | FilterEvent.submitSearch => false
  | FilterEvent.clearAllFilters => false
  | FilterEvent.setPage _ => false

/-- The pagination summary of a listing response
(`PropertiesResponse.pagination` in `src/services/propertyService.ts`). -/
structure PaginationSummary where
  page : Nat
  limit : Nat
  pages : Nat
  total : Nat
deriving DecidableEq

/-- Arrival of a listing response at the `Properties` page: the component
registers no effect on the fetched data, so receiving a response (in
particular a new total) performs no state update. -/
def onDataReceived (_pg : PaginationSummary) (s : PropertiesState) : PropertiesState :=
  s

/-- Modelled from the spec: the backend listing endpoint (no backend
source is present in the repository; behavior follows the documented
controller, `const pageNum = Math.max(1, parseInt(page))`) clamps the
requested page only from below. -/
def backendPageNum (page : Int) : Int := max 1 page

/-- Modelled from the spec: the documented backend clamps the requested
limit into `[1, 100]` (`Math.min(100, Math.max(1, parseInt(limit)))`). -/
def backendLimitNum (limit : Int) : Int := min 100 (max 1 limit)

/-- Modelled from the spec: the documented backend computes the total
page count as `Math.ceil(total / limit)`. -/
def backendPages (total limit : Nat) : Nat := (total + limit - 1) / limit

/-- One component of a react-query cache key: a string literal or a
filter record (`useProperties.ts` builds keys from both). -/
inductive KeyPart where
  | str (s : String)
  | fil (f : PropertyFilters)
deriving DecidableEq

/-- A react-query cache key, as built in `src/hooks/useProperties.ts`. -/
abbrev QueryKey := List KeyPart

/-- The listing key of `useProperties`:
`queryKey: ['properties', filters]`. -/
def propertiesListKey (f : PropertyFilters) : QueryKey :=
  [KeyPart.str "properties", KeyPart.fil f]

/-- The detail key of `useProperty`: `queryKey: ['property', id]`. -/
def propertyDetailKey (id : String) : QueryKey :=
  [KeyPart.str "property", KeyPart.str id]

/-- The search key of `useSearchProperties`:
`queryKey: ['properties', 'search', query, filters]`. -/
def searchPropertiesKey (q : String) (f : PropertyFilters) : QueryKey :=
  [KeyPart.str "properties", KeyPart.str "search", KeyPart.str q, KeyPart.fil f]

/-- A fetched result set (property identifiers; the payload content is
irrelevant to the cache claims). -/
abbrev ResultSet := List String

/-- Whether the smaller key is an initial segment of the larger one —
react-query's partial key matching. -/
def keyIsPrefixOf : QueryKey → QueryKey → Bool
  | [], _ => true
  | _ :: _, [] => false
  | p :: ps, k :: ks => decide (p = k) && keyIsPrefixOf ps ks

/-- Modelled from the spec: the Data Fetch/Cache Layer's store
(react-query's `QueryClient`, library code not present in the
repository) — cached last successful results per key, plus the set of
keys marked stale by invalidation. -/
structure CacheState where
  entries : List (QueryKey × ResultSet)
  invalidated : List QueryKey

/-- Whether a key has a cached entry. -/
def cacheHas (c : CacheState) (k : QueryKey) : Bool :=
  c.entries.any (fun e => decide (e.1 = k))

/-- Whether a key is currently marked invalidated. -/
def isInvalidated (c : CacheState) (k : QueryKey) : Bool :=
  c.invalidated.any (fun j => decide (j = k))

/-- Modelled from the spec: a fetch for a key performs a network call
exactly when the key has no cached entry or its entry has been
invalidated; otherwise the cached data is served. -/
def fetchNeedsNetwork (c : CacheState) (k : QueryKey) : Bool :=
  !cacheHas c k || isInvalidated c k

/-- Modelled from the spec: `queryClient.invalidateQueries({ queryKey })`
(react-query, library code not present in the repository) marks every
cached entry whose key extends the given key as stale. -/
def invalidateQueries (pre : QueryKey) (c : CacheState) : CacheState :=
  { c with invalidated :=
      (c.entries.map Prod.fst).filter (fun k => keyIsPrefixOf pre k) ++
        c.invalidated }

/-- The `onSuccess` handler of `useCreateProperty`
(`src/hooks/useProperties.ts`):
`queryClient.invalidateQueries({ queryKey: ['properties'] })`. -/
def onCreateSuccess (c : CacheState) : CacheState :=
  invalidateQueries [KeyPart.str "properties"] c

/-- The `onSuccess` handler of `useUpdateProperty`: it invalidates
`['properties']` and then `['property', id]`. -/
def onUpdateSuccess (id : String) (c : CacheState) : CacheState :=
  invalidateQueries [KeyPart.str "property", KeyPart.str id]
    (invalidateQueries [KeyPart.str "properties"] c)

/-- The `onSuccess` handler of `useDeleteProperty`:
`queryClient.invalidateQueries({ queryKey: ['properties'] })`. -/
def onDeleteSuccess (c : CacheState) : CacheState :=
  invalidateQueries [KeyPart.str "properties"] c

/-- Modelled from the spec: the visible state of the filtered list — the
currently active cache key (the key derived from the filters the
component currently renders with) and the visible result set. -/
structure ListViewState where
  activeKey : QueryKey
  visible : Option ResultSet

/-- An event of the Data Fetch/Cache Layer: a fetch issued for a key
(which makes that key the active one), or a response arriving for the
key it was requested with. -/
inductive FetchEvent where
  | issue (k : QueryKey)
  | respond (k : QueryKey) (d : ResultSet)

/-- Modelled from the spec: only the response matching the current cache
key may update the visible result; a response whose key differs from the
active key is discarded on arrival. -/
def fetchStep : FetchEvent → ListViewState → ListViewState
  | FetchEvent.issue k, s => { s with activeKey := k }
  | FetchEvent.respond k d, s =>
      if k = s.activeKey then { s with visible := some d } else s

/-- Run a sequence of fetch-layer events. -/
def runFetch (es : List FetchEvent) (s : ListViewState) : ListViewState :=
  es.foldl (fun t e => fetchStep e t) s

end EthioHome

namespace EthioHome

theorem stepAuth_preserves_consistent (e : AuthEvent) (s : AuthState)
    (h : authConsistent s) : authConsistent (stepAuth e s) := by
  cases e <;>
    simp_all [stepAuth, authConsistent, anonymousState, Option.isSome_iff_ne_none]

theorem runAuth_preserves_consistent (es : List AuthEvent) (s : AuthState)
    (h : authConsistent s) : authConsistent (runAuth es s) := by
  induction es generalizing s with
  | nil => exact h
  | cons e es ih => exact ih _ (stepAuth_preserves_consistent e s h)

/-- Claim C9: in every state of the session store reachable from its
initial state through its operations' transitions, `isAuthenticated` is
true if and only if `user` is non-null; in particular no reachable state
has a null user together with `isAuthenticated = true`. -/
theorem c9_auth_invariant (es : List AuthEvent) :
    ((runAuth es initialAuthState).isAuthenticated = true ↔
      (runAuth es initialAuthState).user ≠ none) ∧
    ¬((runAuth es initialAuthState).user = none ∧
      (runAuth es initialAuthState).isAuthenticated = true) := by
  have h : authConsistent (runAuth es initialAuthState) :=
    runAuth_preserves_consistent es initialAuthState
      (by simp [authConsistent, initialAuthState])
  exact ⟨h, fun hc => (h.mp hc.2) hc.1⟩

/-- Claim C10: the session probe `getCurrentUser` never propagates an
error to its caller, and on every failure of the underlying
`GET /users/me` call it leaves the store with `user = null`,
`isAuthenticated = false`, `isLoading = false`. -/
theorem c10_probe_never_throws :
    (∀ (probe : Except ApiError User) (s : AuthState),
        (getCurrentUser probe s).2 = none) ∧
    (∀ (e : ApiError) (s : AuthState),
        (getCurrentUser (Except.error e) s).1 = anonymousState) := by
  constructor
  · intro probe s
    cases probe <;> rfl
  · intro e s
    rfl

/-- Claim C8 counterexample: starting from an authenticated state, the
state observed while the server-side logout call is in flight is still
authenticated — `logout` does not flip the state to anonymous before the
server call completes (the only `set` happens after the `await`). -/
theorem c8_counterexample :
    (logout (Except.ok ())
        { user := some { id := "u1", name := "Abebe", email := "a@b.et",
                         role := "buyer" },
          isAuthenticated := true, isLoading := false
        }).stateDuringServerCall.isAuthenticated = true := rfl

/-- Claim C8 (amended): `logout` issues the server-side logout call and
clears the client state only after that call settles; the state during
the call is the entry state, and the final state is anonymous for every
server result (a failure never leaves the state authenticated). -/
theorem c8_logout_amended (r : Except ApiError Unit) (s : AuthState) :
    (logout r s).serverCallIssued = true ∧
    (logout r s).stateDuringServerCall = s ∧
    (logout r s).finalState = anonymousState := by
  cases r <;> exact ⟨rfl, rfl, rfl⟩

/-- Claim C7: with two `useAuth` consumers mounted in the same render
commit and the store in its initial anonymous state, both mount effects
test the render-time snapshot (`user = null`, `isLoading = false`) rather
than the current store state, so each of them calls `getCurrentUser`: two
session probes are issued and simultaneously in flight, not one. -/
theorem c7_duplicate_probes :
    (mountBatch 2 initialProbeWorld).probesIssued = 2 ∧
    (mountBatch 2 initialProbeWorld).probesInFlight = 2 := by
  constructor <;> rfl

/-- Claim C2 counterexample: a 401 arriving while the pathname already
includes `/login` (an authenticated store on the login page, e.g. a stale
session) removes the persisted auth entry but performs no navigation, so
the in-memory session store remains authenticated — it does not
transition to anonymous. -/
theorem c2_counterexample :
    (handleApiError 401
        { store :=
            { user := some { id := "u1", name := "Abebe", email := "a@b.et",
                             role := "buyer" },
              isAuthenticated := true, isLoading := false },
          storage := some
            { user := some { id := "u1", name := "Abebe", email := "a@b.et",
                             role := "buyer" },
              isAuthenticated := true },
          path := "/login" }).store.isAuthenticated = true := by
  decide

/-- Claim C2 (amended): on any 401 the interceptor clears the persisted
`auth-storage` entry; when the current pathname does not include `/login`
(in particular on every view that requires authentication) it navigates
to `/login`, and the reloaded application rehydrates the store as
anonymous; when the pathname already includes `/login`, the in-memory
store is left unchanged — only the persisted copy is cleared. -/
theorem c2_session_invalidation_amended (w : BrowserWorld) :
    (handleApiError 401 w).storage = none ∧
    (jsIncludes w.path "/login" = false →
      (handleApiError 401 w).path = "/login" ∧
      (handleApiError 401 w).store = initialAuthState) ∧
    (jsIncludes w.path "/login" = true →
      (handleApiError 401 w).store = w.store) := by
  unfold handleApiError
  rw [if_pos rfl]
  by_cases h : jsIncludes w.path "/login" = true
  · rw [if_pos h]
    refine ⟨rfl, fun hc => ?_, fun _ => rfl⟩
    rw [h] at hc
    cases hc
  · rw [if_neg h]
    refine ⟨rfl, fun _ => ⟨rfl, rfl⟩, fun ht => absurd ht h⟩

/-- Claim C2 witness: a 401 on the `/properties` view with an
authenticated store clears the storage, navigates to `/login`, and the
rehydrated store is anonymous. -/
theorem c2_witness :
    (handleApiError 401
        { store :=
            { user := some { id := "u2", name := "Sara", email := "s@b.et",
                             role := "seller" },
              isAuthenticated := true, isLoading := false },
          storage := some
            { user := some { id := "u2", name := "Sara", email := "s@b.et",
                             role := "seller" },
              isAuthenticated := true },
          path := "/properties" }).storage = none ∧
    (handleApiError 401
        { store :=
            { user := some { id := "u2", name := "Sara", email := "s@b.et",
                             role := "seller" },
              isAuthenticated := true, isLoading := false },
          storage := some
            { user := some { id := "u2", name := "Sara", email := "s@b.et",
                             role := "seller" },
              isAuthenticated := true },
          path := "/properties" }).path = "/login" ∧
    (handleApiError 401
        { store :=
            { user := some { id := "u2", name := "Sara", email := "s@b.et",
                             role := "seller" },
              isAuthenticated := true, isLoading := false },
          storage := some
            { user := some { id := "u2", name := "Sara", email := "s@b.et",
                             role := "seller" },
              isAuthenticated := true },
          path := "/properties" }).store = initialAuthState := by
  have h := c2_session_invalidation_amended
    { store :=
        { user := some { id := "u2", name := "Sara", email := "s@b.et",
                         role := "seller" },
          isAuthenticated := true, isLoading := false },
      storage := some
        { user := some { id := "u2", name := "Sara", email := "s@b.et",
                         role := "seller" },
          isAuthenticated := true },
      path := "/properties" }
  exact ⟨h.1, (h.2.1 (by decide)).1, (h.2.1 (by decide)).2⟩

/-- Claim C3 counterexample: on page 3, toggling the verified-only filter
leaves the page dimension of the canonical filter at 3, not 1 — a filter
change other than the page number does not reset the page. -/
theorem c3_counterexample :
    (buildFilters (stepProperties (FilterEvent.setVerifiedOnly true)
        { initialPropertiesState with currentPage := 3 })).page = 3 ∧
    (buildFilters (stepProperties (FilterEvent.setVerifiedOnly true)
        { initialPropertiesState with currentPage := 3 })).page ≠ 1 := by
  exact ⟨rfl, by decide⟩

/-- Claim C3 (amended): changing a filter dimension other than the page
number (location text, property type, price bounds, bedrooms, bathrooms,
sort key, verified-only) leaves the current page unchanged; the page is
reset to 1 only by submitting the search form (`handleSearch`) and by
the Clear All button (`clearFilters`). -/
theorem c3_page_reset_amended :
    (∀ (e : FilterEvent) (s : PropertiesState),
        isFilterDimensionChange e = true →
        (stepProperties e s).currentPage = s.currentPage) ∧
    (∀ s : PropertiesState,
        (stepProperties FilterEvent.submitSearch s).currentPage = 1) ∧
    (∀ s : PropertiesState,
        (stepProperties FilterEvent.clearAllFilters s).currentPage = 1) := by
  refine ⟨fun e s he => ?_, fun s => rfl, fun s => rfl⟩
  cases e <;> first
    | rfl
    | exact absurd he (by simp [isFilterDimensionChange])

/-- Claim C3 witness: concrete instantiation of the amended statement —
toggling the verified-only filter on page 3 leaves the page at 3, and
submitting the search form from that state resets it to 1. -/
theorem c3_witness :
    (stepProperties (FilterEvent.setVerifiedOnly true)
        { initialPropertiesState with currentPage := 3 }).currentPage =
      ({ initialPropertiesState with currentPage := 3 } :
        PropertiesState).currentPage ∧
    (stepProperties FilterEvent.submitSearch
        { initialPropertiesState with currentPage := 3 }).currentPage = 1 :=
  ⟨c3_page_reset_amended.1 (FilterEvent.setVerifiedOnly true)
      { initialPropertiesState with currentPage := 3 } rfl,
    c3_page_reset_amended.2.1 { initialPropertiesState with currentPage := 3 }⟩

/-- Claim C4: semantically equivalent UI filter inputs — a lower price
bound of 0 (the unset default), an upper bound at the 5,000,000 domain
ceiling (the unset default), and search texts equal up to surrounding
whitespace — normalize to identical canonical filter records and hence
identical cache keys. -/
theorem c4_filter_normalization (s1 s2 : PropertiesState)
    (hq : jsTrim s1.searchQuery = jsTrim s2.searchQuery)
    (ht : s1.selectedType = s2.selectedType)
    (hbd : s1.bedrooms = s2.bedrooms)
    (hba : s1.bathrooms = s2.bathrooms)
    (hso : s1.sortBy = s2.sortBy)
    (hpg : s1.currentPage = s2.currentPage)
    (hvo : s1.verifiedOnly = s2.verifiedOnly)
    (hlo : s1.priceLo = s2.priceLo ∨ (s1.priceLo = 0 ∧ s2.priceLo = 0))
    (hhi : s1.priceHi = s2.priceHi ∨
      (5000000 ≤ s1.priceHi ∧ 5000000 ≤ s2.priceHi)) :
    buildFilters s1 = buildFilters s2 ∧
    filtersCacheKey (buildFilters s1) = filtersCacheKey (buildFilters s2) := by
  have hb : buildFilters s1 = buildFilters s2 := by
    obtain ⟨q1, t1, lo1, hi1, bd1, ba1, so1, sf1, pg1, vo1⟩ := s1
    obtain ⟨q2, t2, lo2, hi2, bd2, ba2, so2, sf2, pg2, vo2⟩ := s2
    simp only at hq ht hbd hba hso hpg hvo hlo hhi
    subst ht hbd hba hso hpg hvo
    have hmin : (if lo1 > 0 then some lo1 else none) =
        (if lo2 > 0 then some lo2 else none) := by
      rcases hlo with h | ⟨h1, h2⟩
      · rw [h]
      · subst h1; subst h2; rfl
    have hmax : (if hi1 < 5000000 then some hi1 else none) =
        (if hi2 < 5000000 then some hi2 else none) := by
      rcases hhi with h | ⟨h1, h2⟩
      · rw [h]
      · rw [if_neg (by omega), if_neg (by omega)]
    simp only [buildFilters, hq, hmin, hmax]
  exact ⟨hb, by rw [hb]⟩

/-- Claim C4 witness: a whitespace-only search text with the default
price range produces the same canonical filter and cache key as an empty
search text. -/
theorem c4_witness :
    buildFilters { initialPropertiesState with searchQuery := "  " } =
      buildFilters initialPropertiesState ∧
    filtersCacheKey
        (buildFilters { initialPropertiesState with searchQuery := "  " }) =
      filtersCacheKey (buildFilters initialPropertiesState) :=
  c4_filter_normalization
    { initialPropertiesState with searchQuery := "  " }
    initialPropertiesState
    (by decide) rfl rfl rfl rfl rfl rfl (Or.inl rfl) (Or.inl rfl)

/-- Claim C6 counterexample: with total 45 and limit 20 the documented
backend reports 3 total pages, but a requested page of 5 is not clamped
to 3 — the backend clamps only from below (`Math.max(1, page)` gives 5)
and the client performs no state update when the response with the new
total arrives, so the current page stays 5. -/
theorem c6_counterexample :
    backendPages 45 20 = 3 ∧
    backendPageNum 5 = 5 ∧
    (onDataReceived { page := 5, limit := 20, pages := 3, total := 45 }
        { initialPropertiesState with currentPage := 5 }).currentPage = 5 ∧
    (5 : Nat) ≠ 3 := by
  refine ⟨rfl, by decide, rfl, by decide⟩

/-- Claim C6 (amended): the documented backend's page count is the exact
ceiling of total over limit (the least page count covering all items);
the requested page is clamped only from below to at least 1 and is kept
as requested whenever it is at least 1 (no upper clamp against the page
count); and the client performs no state update when a response carrying
a new total arrives, so the current page is never clamped on a total
change. -/
theorem c6_pagination_amended (total limit : Nat) (p : Int)
    (pg : PaginationSummary) (s : PropertiesState) (hl : 0 < limit) :
    total ≤ backendPages total limit * limit ∧
    (∀ n : Nat, total ≤ n * limit → backendPages total limit ≤ n) ∧
    1 ≤ backendPageNum p ∧
    (1 ≤ p → backendPageNum p = p) ∧
    onDataReceived pg s = s := by
  refine ⟨?_, ?_, le_max_left 1 p, fun hp => max_eq_right hp, rfl⟩
  · unfold backendPages
    have h1 := Nat.div_add_mod (total + limit - 1) limit
    have h2 : (total + limit - 1) % limit < limit := Nat.mod_lt _ hl
    rw [Nat.mul_comm]
    omega
  · intro n hn
    unfold backendPages
    have hc2 : limit * (n + 1) = n * limit + limit := by ring
    have h3 : total + limit - 1 < limit * (n + 1) := by omega
    have h4 := Nat.div_lt_of_lt_mul h3
    omega

/-- Claim C6 witness: the amended statement at total 45, limit 20,
requested page 5 — the page count is exactly 3 by the ceiling
characterization, and page 5 stays 5. -/
theorem c6_witness :
    45 ≤ backendPages 45 20 * 20 ∧
    backendPages 45 20 ≤ 3 ∧
    backendPageNum 5 = 5 ∧
    onDataReceived { page := 5, limit := 20, pages := 3, total := 45 }
        initialPropertiesState = initialPropertiesState := by
  have h := c6_pagination_amended 45 20 5
    { page := 5, limit := 20, pages := 3, total := 45 }
    initialPropertiesState (by decide)
  exact ⟨h.1, h.2.1 3 (by decide), h.2.2.2.1 (by decide), h.2.2.2.2⟩

theorem propertiesListKey_inj {f1 f2 : PropertyFilters}
    (h : propertiesListKey f1 = propertiesListKey f2) : f1 = f2 := by
  simpa [propertiesListKey] using h

/-- Claim C1: when the filter changes from one canonical value to another
(cache key K1 issued, then K2), a K1 response that arrives after the K2
response is discarded, and the visible result list reflects K2's data —
last-request-wins. -/
theorem c1_last_request_wins (s : ListViewState) (f1 f2 : PropertyFilters)
    (d1 d2 : ResultSet) (h : f1 ≠ f2) :
    (runFetch
        [FetchEvent.issue (propertiesListKey f1),
         FetchEvent.issue (propertiesListKey f2),
         FetchEvent.respond (propertiesListKey f2) d2,
         FetchEvent.respond (propertiesListKey f1) d1] s).visible = some d2 := by
  have hne : propertiesListKey f1 ≠ propertiesListKey f2 :=
    fun hc => h (propertiesListKey_inj hc)
  simp [runFetch, fetchStep, hne]

/-- Claim C1 witness: fetches for page 1 and then page 2 of the default
filters, with the page-1 response arriving last — the visible list is the
page-2 data. -/
theorem c1_witness :
    (runFetch
        [FetchEvent.issue (propertiesListKey (buildFilters initialPropertiesState)),
         FetchEvent.issue (propertiesListKey (buildFilters
            { initialPropertiesState with currentPage := 2 })),
         FetchEvent.respond (propertiesListKey (buildFilters
            { initialPropertiesState with currentPage := 2 })) ["p3", "p4"],
         FetchEvent.respond (propertiesListKey (buildFilters initialPropertiesState))
            ["p1", "p2"]]
        { activeKey := [], visible := none }).visible = some ["p3", "p4"] :=
  c1_last_request_wins { activeKey := [], visible := none }
    (buildFilters initialPropertiesState)
    (buildFilters { initialPropertiesState with currentPage := 2 })
    ["p1", "p2"] ["p3", "p4"] (by decide)

theorem cacheHas_invalidateQueries (pre : QueryKey) (c : CacheState)
    (k : QueryKey) :
    cacheHas (invalidateQueries pre c) k = cacheHas c k := rfl

theorem isInvalidated_of_cached (pre : QueryKey) (c : CacheState)
    (k : QueryKey) (hc : cacheHas c k = true)
    (hp : keyIsPrefixOf pre k = true) :
    isInvalidated (invalidateQueries pre c) k = true := by
  simp only [cacheHas, List.any_eq_true, decide_eq_true_eq] at hc
  obtain ⟨e, he, heq⟩ := hc
  simp only [isInvalidated, invalidateQueries, List.any_eq_true,
    decide_eq_true_eq, List.mem_append]
  exact ⟨k, Or.inl (List.mem_filter.mpr
    ⟨List.mem_map.mpr ⟨e, he, heq⟩, hp⟩), rfl⟩

theorem isInvalidated_mono (pre : QueryKey) (c : CacheState) (k : QueryKey)
    (h : isInvalidated c k = true) :
    isInvalidated (invalidateQueries pre c) k = true := by
  simp only [isInvalidated, List.any_eq_true, decide_eq_true_eq] at h
  obtain ⟨j, hj, hjk⟩ := h
  simp only [isInvalidated, invalidateQueries, List.any_eq_true,
    decide_eq_true_eq, List.mem_append]
  exact ⟨j, Or.inr hj, hjk⟩

theorem invalidate_forces_network (pre : QueryKey) (c : CacheState)
    (k : QueryKey) (hp : keyIsPrefixOf pre k = true) :
    fetchNeedsNetwork (invalidateQueries pre c) k = true := by
  by_cases hc : cacheHas c k = true
  · have h := isInvalidated_of_cached pre c k hc hp
    simp [fetchNeedsNetwork, h]
  · have hc2 : cacheHas c k = false := by
      cases hb : cacheHas c k
      · rfl
      · exact absurd hb hc
    simp [fetchNeedsNetwork, cacheHas_invalidateQueries, hc2]

/-- Claim C5: after a successful `createProperty` mutation (and likewise
`updateProperty` and `deleteProperty`), every key in the properties
listing namespace — every key extending `['properties']`, which includes
every listing key `['properties', filters]` — is invalidated, so a
subsequent fetch for such a key performs a network call instead of
serving the cached data. -/
theorem c5_mutation_invalidates_namespace (c : CacheState) (id : String)
    (k : QueryKey) (hp : keyIsPrefixOf [KeyPart.str "properties"] k = true) :
    fetchNeedsNetwork (onCreateSuccess c) k = true ∧
    fetchNeedsNetwork (onUpdateSuccess id c) k = true ∧
    fetchNeedsNetwork (onDeleteSuccess c) k = true ∧
    (∀ f : PropertyFilters,
      keyIsPrefixOf [KeyPart.str "properties"] (propertiesListKey f) = true) := by
  refine ⟨invalidate_forces_network _ c k hp, ?_,
    invalidate_forces_network _ c k hp, ?_⟩
  · by_cases hc : cacheHas c k = true
    · have h1 := isInvalidated_of_cached [KeyPart.str "properties"] c k hc hp
      have h2 := isInvalidated_mono
        [KeyPart.str "property", KeyPart.str id] _ k h1
      simp [onUpdateSuccess, fetchNeedsNetwork, h2]
    · have hc2 : cacheHas c k = false := by
        cases hb : cacheHas c k
        · rfl
        · exact absurd hb hc
      simp [onUpdateSuccess, fetchNeedsNetwork, cacheHas_invalidateQueries, hc2]
  · intro f
    simp [keyIsPrefixOf, propertiesListKey]

/-- Claim C5 witness: a cache holding the listing entry for the default
filters needs a fresh network call for that key after each of the three
mutations' `onSuccess` handlers. -/
theorem c5_witness :
    fetchNeedsNetwork
      (onCreateSuccess
        { entries := [(propertiesListKey (buildFilters initialPropertiesState),
                       ["p1"])],
          invalidated := [] })
      (propertiesListKey (buildFilters initialPropertiesState)) = true ∧
    fetchNeedsNetwork
      (onUpdateSuccess "prop1"
        { entries := [(propertiesListKey (buildFilters initialPropertiesState),
                       ["p1"])],
          invalidated := [] })
      (propertiesListKey (buildFilters initialPropertiesState)) = true := by
  have h := c5_mutation_invalidates_namespace
    { entries := [(propertiesListKey (buildFilters initialPropertiesState),
                   ["p1"])],
      invalidated := [] }
    "prop1"
    (propertiesListKey (buildFilters initialPropertiesState))
    (by decide)
  exact ⟨h.1, h.2.1⟩

end EthioHome
